import Mathlib

/-!  Verification of dockeryzer's detection-and-rule-evaluation core.

Shallow embedding of the language-detection engine
(`src/utils/detectProject.go`) and the CIS rule engine
(`security` package: analyzer, rules, score output).

Strings are modelled as lists of characters (`Str`).  The Go standard-library
string functions the source uses (strings.HasPrefix, HasSuffix, Contains,
Split, Fields, TrimSpace, ToUpper, ToLower, TrimPrefix, Join, strconv.Atoi)
are defined below with Go's semantics; case mapping and the whitespace class
are the ASCII ones, which agree with Go's Unicode versions on the ASCII
instruction keywords, environment-variable names and version strings the
analyzer inspects.  Fallible code (a Go runtime panic) is modelled with
`Option`: `none` is a panic.
-/

namespace Dockeryzer

/-- Go strings are modelled as lists of characters. -/
abbrev Str := List Char

/-- Go strings.HasPrefix s pre. -/
def goHasPrefix (s pre : Str) : Bool := pre.isPrefixOf s

/-- Go strings.HasSuffix s suf. -/
def goHasSuffix (s suf : Str) : Bool := suf.isSuffixOf s

/-- Scan of `goContains`: does `sub` occur in the scanned suffix. -/
def containsAux (sub : Str) : Str → Bool
  | [] => sub.isEmpty
  | c :: t => sub.isPrefixOf (c :: t) || containsAux sub t

/-- Go strings.Contains s sub. -/
def goContains (s sub : Str) : Bool := containsAux sub s

/-- ASCII upper-casing of one character, as Go unicode.ToUpper acts on ASCII. -/
def upChar (c : Char) : Char :=
  if 'a' ≤ c ∧ c ≤ 'z' then Char.ofNat (c.toNat - 32) else c

/-- ASCII lower-casing of one character, as Go unicode.ToLower acts on ASCII. -/
def loChar (c : Char) : Char :=
  if 'A' ≤ c ∧ c ≤ 'Z' then Char.ofNat (c.toNat + 32) else c

/-- Go strings.ToUpper (ASCII). -/
def goToUpper (s : Str) : Str := s.map upChar

/-- Go strings.ToLower (ASCII). -/
def goToLower (s : Str) : Str := s.map loChar

/-- The ASCII characters of Go's unicode.IsSpace class, used by
strings.TrimSpace and strings.Fields. -/
def isSpaceGo (c : Char) : Bool :=
  c == ' ' || c == '\t' || c == '\n' || c == '\r' || c == '\x0b' || c == '\x0c'

/-- Go strings.TrimSpace. -/
def goTrimSpace (s : Str) : Str :=
  ((s.dropWhile isSpaceGo).reverse.dropWhile isSpaceGo).reverse

/-- Go strings.Fields: the maximal runs of non-whitespace characters. -/
def goFields (s : Str) : List Str :=
  (List.splitOnP isSpaceGo s).filter (fun w => !w.isEmpty)

/-- Scan of `goSplit`: `acc` is the current piece, reversed.  Structural
recursion on a fuel that starts at one more than the scanned string's length:
the separator is non-empty, so every step consumes at least one character and
the fuel is never exhausted. -/
def goSplitAux (sep : Str) : Nat → Str → Str → List Str
  | 0, s, acc => [acc.reverse ++ s]
  | _ + 1, [], acc => [acc.reverse]
  | fuel + 1, c :: t, acc =>
    if sep.isPrefixOf (c :: t) then
      acc.reverse :: goSplitAux sep fuel (t.drop (sep.length - 1)) []
    else
      goSplitAux sep fuel t (c :: acc)

/-- Go strings.Split s sep, for the non-empty separators the source uses
("\n", ".", "/", "java-").  Go's empty-separator case (split into runes) is
never exercised and is mapped to the one-piece split. -/
def goSplit (s sep : Str) : List Str :=
  if sep = [] then [s] else goSplitAux sep (s.length + 1) s []

/-- Go strings.TrimPrefix. -/
def goTrimPrefix (s pre : Str) : Str :=
  if goHasPrefix s pre then s.drop pre.length else s

/-- Go strings.Join l sep. -/
def goJoin : List Str → Str → Str
  | [], _ => []
  | [x], _ => x
  | x :: y :: t, sep => x ++ sep ++ goJoin (y :: t) sep

/-- Decimal digit value of a character. -/
def digitVal (c : Char) : Option Nat :=
  if '0' ≤ c ∧ c ≤ '9' then some (c.toNat - '0'.toNat) else none

/-- Scan of `parseDigits`. -/
def parseDigitsAux : Str → Nat → Option Nat
  | [], acc => some acc
  | c :: t, acc =>
    match digitVal c with
    | none => none
    | some d => parseDigitsAux t (acc * 10 + d)

/-- A non-empty all-digit string, as a natural number. -/
def parseDigits : Str → Option Nat
  | [] => none
  | s => parseDigitsAux s 0

/-- Largest value of Go's 64-bit int. -/
def maxInt64 : Nat := 2 ^ 63 - 1

/-- Go strconv.Atoi on a 64-bit platform: an optional sign then decimal
digits; `none` (an error in Go) for an empty string, a stray character or a
value outside the int64 range. -/
def goAtoi : Str → Option Int
  | '+' :: t => (parseDigits t).bind fun n =>
      if n ≤ maxInt64 then some (n : Int) else none
  | '-' :: t => (parseDigits t).bind fun n =>
      if n ≤ 2 ^ 63 then some (-(n : Int)) else none
  | s => (parseDigits s).bind fun n =>
      if n ≤ maxInt64 then some (n : Int) else none

/-! Language-detection engine, from `src/utils/detectProject.go`. -/

/-- LanguageInfo of detectProject.go: Color is "success", "warning" or
"error". -/
structure LanguageInfo where
  Name : Str
  Version : Str
  Color : Str
deriving DecidableEq, Repr

/-- Config part of the Docker image-inspect record: the fields
DetectPrimaryLanguage reads. -/
structure ImageConfig where
  Env : List Str
  Cmd : List Str
  Entrypoint : List Str
  WorkingDir : Str
deriving DecidableEq, Repr

/-- Image-inspect record: config plus total size in bytes. -/
structure InspectResponse where
  Config : ImageConfig
  Size : Int
deriving DecidableEq, Repr

/-- detectNodeJSVersion: value of the first NODE_VERSION= environment
entry, "" when there is none. -/
def detectNodeJSVersion : List Str → Str
  | [] => []
  | envVar :: t =>
    if goHasPrefix envVar "NODE_VERSION=".data then
      goTrimPrefix envVar "NODE_VERSION=".data
    else detectNodeJSVersion t

/-- detectPythonVersion. -/
def detectPythonVersion : List Str → Str
  | [] => []
  | envVar :: t =>
    if goHasPrefix envVar "PYTHON_VERSION=".data then
      goTrimPrefix envVar "PYTHON_VERSION=".data
    else detectPythonVersion t

/-- detectJavaVersion: JAVA_VERSION= value, or from JAVA_HOME= the token
between "java-" and the next "/" ("detected" when the path has no "java-").
goSplit never returns an empty list, so the empty match arms are
unreachable; they mirror the source's fall-through to "detected". -/
def detectJavaVersion : List Str → Str
  | [] => []
  | envVar :: t =>
    if goHasPrefix envVar "JAVA_VERSION=".data then
      goTrimPrefix envVar "JAVA_VERSION=".data
    else if goHasPrefix envVar "JAVA_HOME=".data then
      let path := goTrimPrefix envVar "JAVA_HOME=".data
      if goContains path "java-".data then
        match goSplit path "java-".data with
        | _ :: part1 :: _ =>
          (match goSplit part1 "/".data with
           | v :: _ => v
           | [] => "detected".data)
        | _ => "detected".data
      else "detected".data
    else detectJavaVersion t

/-- First loop of detectGoVersion: GOLANG_VERSION= or GO_VERSION= value;
the function returns it even when the value is empty. -/
def goVersionEnvLoop : List Str → Option Str
  | [] => none
  | envVar :: t =>
    if goHasPrefix envVar "GOLANG_VERSION=".data then
      some (goTrimPrefix envVar "GOLANG_VERSION=".data)
    else if goHasPrefix envVar "GO_VERSION=".data then
      some (goTrimPrefix envVar "GO_VERSION=".data)
    else goVersionEnvLoop t

/-- detectGoVersion: explicit version variables, else GOPATH= gives
"detected". -/
def detectGoVersion (envVars : List Str) : Str :=
  match goVersionEnvLoop envVars with
  | some v => v
  | none =>
    if envVars.any (fun envVar => goHasPrefix envVar "GOPATH=".data) then
      "detected".data
    else []

/-- detectPHPVersion. -/
def detectPHPVersion : List Str → Str
  | [] => []
  | envVar :: t =>
    if goHasPrefix envVar "PHP_VERSION=".data then
      goTrimPrefix envVar "PHP_VERSION=".data
    else detectPHPVersion t

/-- detectRubyVersion. -/
def detectRubyVersion : List Str → Str
  | [] => []
  | envVar :: t =>
    if goHasPrefix envVar "RUBY_VERSION=".data then
      goTrimPrefix envVar "RUBY_VERSION=".data
    else detectRubyVersion t

/-- detectDotNetVersion: DOTNET_VERSION= or ASPNETCORE_VERSION=. -/
def detectDotNetVersion : List Str → Str
  | [] => []
  | envVar :: t =>
    if goHasPrefix envVar "DOTNET_VERSION=".data then
      goTrimPrefix envVar "DOTNET_VERSION=".data
    else if goHasPrefix envVar "ASPNETCORE_VERSION=".data then
      goTrimPrefix envVar "ASPNETCORE_VERSION=".data
    else detectDotNetVersion t

/-- detectRustVersion: RUST_VERSION= value, or CARGO_HOME= gives
"detected". -/
def detectRustVersion : List Str → Str
  | [] => []
  | envVar :: t =>
    if goHasPrefix envVar "RUST_VERSION=".data then
      goTrimPrefix envVar "RUST_VERSION=".data
    else if goHasPrefix envVar "CARGO_HOME=".data then
      "detected".data
    else detectRustVersion t

/-- getMajorVersion: integer before the first ".", 0 on a parse error. -/
def getMajorVersion (version : Str) : Int :=
  match goSplit version ".".data with
  | [] => 0
  | p :: _ => (goAtoi p).getD 0

/-- getMinorVersion: integer after the first ".", 0 when missing or on a
parse error. -/
def getMinorVersion (version : Str) : Int :=
  match goSplit version ".".data with
  | _ :: p :: _ => (goAtoi p).getD 0
  | _ => 0

/-- First "."-separated token of a version string, the one getMajorVersion
parses. -/
def majorTok (version : Str) : Str :=
  match goSplit version ".".data with
  | [] => []
  | p :: _ => p

/-- getNodeJSColor. -/
def getNodeJSColor (version : Str) : Str :=
  if version = "detected".data ∨ version = "unknown".data then "warning".data
  else if getMajorVersion version < 14 then "error".data
  else if 14 ≤ getMajorVersion version ∧ getMajorVersion version ≤ 16 then
    "warning".data
  else "success".data

/-- getPythonColor. -/
def getPythonColor (version : Str) : Str :=
  if version = "detected".data ∨ version = "unknown".data then "warning".data
  else if getMajorVersion version < 3 then "error".data
  else if getMajorVersion version = 3 ∧ getMinorVersion version < 8 then
    "warning".data
  else "success".data

/-- getJavaColor. -/
def getJavaColor (version : Str) : Str :=
  if version = "detected".data ∨ version = "unknown".data then "warning".data
  else if getMajorVersion version < 11 then "error".data
  else if 11 ≤ getMajorVersion version ∧ getMajorVersion version < 17 then
    "warning".data
  else "success".data

/-- getGoColor: the sentinels "detected", "unknown" and "compiled" are
success. -/
def getGoColor (version : Str) : Str :=
  if version = "detected".data ∨ version = "unknown".data ∨
      version = "compiled".data then "success".data
  else if getMajorVersion version < 1 then "error".data
  else if getMajorVersion version = 1 ∧ getMinorVersion version < 19 then
    "warning".data
  else "success".data

/-- getPHPColor. -/
def getPHPColor (version : Str) : Str :=
  if version = "detected".data ∨ version = "unknown".data then "warning".data
  else if getMajorVersion version < 7 then "error".data
  else if getMajorVersion version = 7 then "warning".data
  else "success".data

/-- getRubyColor. -/
def getRubyColor (version : Str) : Str :=
  if version = "detected".data ∨ version = "unknown".data then "warning".data
  else if getMajorVersion version < 2 then "error".data
  else if getMajorVersion version = 2 then "warning".data
  else "success".data

/-- getDotNetColor: below 6 is only a warning, never error. -/
def getDotNetColor (version : Str) : Str :=
  if version = "detected".data ∨ version = "unknown".data then "warning".data
  else if getMajorVersion version < 6 then "warning".data
  else "success".data

/-- detectByCommand: substring sniffing over entrypoint tokens then command
tokens, joined by " "; every hit reports version "unknown" with color
"warning". -/
def detectByCommand (cmd entrypoint : List Str) : Option LanguageInfo :=
  let commandStr := goJoin (entrypoint ++ cmd) " ".data
  if goContains commandStr "node".data || goContains commandStr "npm".data then
    some ⟨"Node.js".data, "unknown".data, "warning".data⟩
  else if goContains commandStr "python".data then
    some ⟨"Python".data, "unknown".data, "warning".data⟩
  else if goContains commandStr "java -jar".data ||
      goContains commandStr "java ".data then
    some ⟨"Java".data, "unknown".data, "warning".data⟩
  else if goContains commandStr "php".data then
    some ⟨"PHP".data, "unknown".data, "warning".data⟩
  else if goContains commandStr "ruby".data then
    some ⟨"Ruby".data, "unknown".data, "warning".data⟩
  else if goContains commandStr "dotnet".data then
    some ⟨".NET".data, "unknown".data, "warning".data⟩
  else none

/-- Binary-path test of detectCompiledBinary, on entrypoint[0]. -/
def isLikelyGoBinary (binary : Str) : Bool :=
  (goHasPrefix binary "/app/".data ||
      goHasPrefix binary "/usr/local/bin/".data ||
      goHasPrefix binary "/bin/".data) &&
  !goHasSuffix binary ".sh".data &&
  !goContains binary "python".data &&
  !goContains binary "node".data &&
  !goContains binary "java".data &&
  !goContains binary "ruby".data &&
  !goContains binary "php".data

/-- Working-directory test of detectCompiledBinary. -/
def hasGoWorkingDir (workingDir : Str) : Bool :=
  workingDir == "/app".data || workingDir == "/go/src/app".data

/-- Size test sizeInMB > 5 && sizeInMB < 100 of detectCompiledBinary.  The
source divides the byte count by 1024*1024 in float64; at these magnitudes
the comparison with 5, 20 and 100 is exact, so it is expressed on bytes. -/
def isSmallImage (imageSize : Int) : Bool :=
  decide (5 * 1048576 < imageSize) && decide (imageSize < 100 * 1048576)

/-- detectCompiledBinary: the Go compiled-binary heuristic.  The cmd
parameter is unused, as in the source. -/
def detectCompiledBinary (entrypoint : List Str) (_cmd : List Str)
    (workingDir : Str) (imageSize : Int) : Option LanguageInfo :=
  match entrypoint with
  | [] => none
  | binary :: _ =>
    if isLikelyGoBinary binary &&
        (hasGoWorkingDir workingDir || isSmallImage imageSize) then
      if imageSize < 20 * 1048576 then
        some ⟨"Go".data, "compiled".data, "success".data⟩
      else if hasGoWorkingDir workingDir && isSmallImage imageSize then
        some ⟨"Go".data, "compiled".data, "success".data⟩
      else none
    else none

/-- DetectPrimaryLanguage: the strict priority cascade of
detectProject.go. -/
def DetectPrimaryLanguage (imageInspect : InspectResponse) : Option LanguageInfo :=
  let envVars := imageInspect.Config.Env
  let cmd := imageInspect.Config.Cmd
  let entrypoint := imageInspect.Config.Entrypoint
  let workingDir := imageInspect.Config.WorkingDir
  if detectNodeJSVersion envVars ≠ [] then
    some ⟨"Node.js".data, detectNodeJSVersion envVars,
      getNodeJSColor (detectNodeJSVersion envVars)⟩
  else if detectPythonVersion envVars ≠ [] then
    some ⟨"Python".data, detectPythonVersion envVars,
      getPythonColor (detectPythonVersion envVars)⟩
  else if detectJavaVersion envVars ≠ [] then
    some ⟨"Java".data, detectJavaVersion envVars,
      getJavaColor (detectJavaVersion envVars)⟩
  else if detectGoVersion envVars ≠ [] then
    some ⟨"Go".data, detectGoVersion envVars,
      getGoColor (detectGoVersion envVars)⟩
  else if detectPHPVersion envVars ≠ [] then
    some ⟨"PHP".data, detectPHPVersion envVars,
      getPHPColor (detectPHPVersion envVars)⟩
  else if detectRubyVersion envVars ≠ [] then
    some ⟨"Ruby".data, detectRubyVersion envVars,
      getRubyColor (detectRubyVersion envVars)⟩
  else if detectDotNetVersion envVars ≠ [] then
    some ⟨".NET".data, detectDotNetVersion envVars,
      getDotNetColor (detectDotNetVersion envVars)⟩
  else if detectRustVersion envVars ≠ [] then
    some ⟨"Rust".data, detectRustVersion envVars, "success".data⟩
  else
    match detectByCommand cmd entrypoint with
    | some lang => some lang
    | none => detectCompiledBinary entrypoint cmd workingDir imageInspect.Size

/-- HasOutdatedLanguage: the detected language's color is error or
warning. -/
def HasOutdatedLanguage (imageInspect : InspectResponse) : Bool :=
  match DetectPrimaryLanguage imageInspect with
  | none => false
  | some lang =>
    lang.Color == "error".data || lang.Color == "warning".data

example : goAtoi "12".data = some 12 := by decide
example : goAtoi "-5".data = some (-5) := by decide
example : goAtoi "abc".data = none := by decide
example : goAtoi [] = none := by decide
example : goFields "  FROM  node:18 ".data = ["FROM".data, "node:18".data] := by decide
example : goSplit "12.0.0".data ".".data = ["12".data, "0".data, "0".data] := by decide
example : goSplit "a\nb".data "\n".data = ["a".data, "b".data] := by decide
example : goContains "hello node".data "node".data = true := by decide
example : goTrimSpace "  run x ".data = "run x".data := by decide
example : goToUpper "from x".data = "FROM X".data := by decide

/-! CIS rule engine, from the `security` package (analyzer, rules,
PrintCISResults). -/

/-- CISResult of the security package.  A Go composite literal leaves the
fields it does not name at their zero value, the empty string. -/
structure CISResult where
  RuleID : Str
  Description : Str
  Passed : Bool
  Severity : Str
  Message : Str
deriving DecidableEq, Repr

/-- Line test shared by CIS-1.1, CIS-1.2 and CIS-7.1:
strings.HasPrefix(strings.ToUpper(strings.TrimSpace(line)), "FROM"). -/
def fromLinePred (line : Str) : Bool :=
  goHasPrefix (goToUpper (goTrimSpace line)) "FROM".data

/-- Line test of CIS-6.1:
strings.HasPrefix(strings.ToUpper(strings.TrimSpace(line)), "EXPOSE"). -/
def exposeLinePred (line : Str) : Bool :=
  goHasPrefix (goToUpper (goTrimSpace line)) "EXPOSE".data

/-- Loop of OfficialBaseImageRule.Check over the lines.  On the first FROM
line the source evaluates strings.Fields(line)[1]; when the line has fewer
than two fields that access panics with an index-out-of-range error,
modelled as `none`. -/
def officialBaseImageLoop : List Str → Option CISResult
  | [] => some ⟨"CIS-1.1".data, "Use official base images".data, false,
      "HIGH".data, "No FROM instruction found".data⟩
  | line :: rest =>
    if fromLinePred line then
      match (goFields line)[1]? with
      | none => none
      | some image =>
        if goContains image "/".data && !goHasPrefix image "library/".data then
          some ⟨"CIS-1.1".data, "Use official base images".data, false,
            "MEDIUM".data, "Base image does not appear to be official".data⟩
        else
          some ⟨"CIS-1.1".data, [], true, [], []⟩
    else officialBaseImageLoop rest

/-- CIS-1.1 OfficialBaseImageRule.Check. -/
def OfficialBaseImageCheck (df : Str) : Option CISResult :=
  officialBaseImageLoop (goSplit df "\n".data)

/-- Loop of ExplicitTagRule.Check, with the same panicking
strings.Fields(line)[1] access on the first FROM line. -/
def explicitTagLoop : List Str → Option CISResult
  | [] => some ⟨"CIS-1.2".data, [], false, [], []⟩
  | line :: rest =>
    if fromLinePred line then
      match (goFields line)[1]? with
      | none => none
      | some image =>
        if !goContains image ":".data || goHasSuffix image ":latest".data then
          some ⟨"CIS-1.2".data, "Use explicit image tag (not latest)".data,
            false, "HIGH".data, "Image uses latest or no tag".data⟩
        else
          some ⟨"CIS-1.2".data, [], true, [], []⟩
    else explicitTagLoop rest

/-- CIS-1.2 ExplicitTagRule.Check. -/
def ExplicitTagCheck (df : Str) : Option CISResult :=
  explicitTagLoop (goSplit df "\n".data)

/-- CIS-4.1 NoRootUserRule.Check. -/
def NoRootUserCheck (df : Str) : CISResult :=
  if !goContains (goToLower df) "user".data then
    ⟨"CIS-4.1".data, "Container should not run as root".data, false,
      "HIGH".data, "Missing USER instruction".data⟩
  else ⟨"CIS-4.1".data, [], true, [], []⟩

/-- CIS-5.1 CleanCacheRule.Check. -/
def CleanCacheCheck (df : Str) : CISResult :=
  if goContains (goToLower df) "apt-get clean".data ||
      goContains (goToLower df) "rm -rf /var/lib/apt/lists".data ||
      goContains (goToLower df) "apk --no-cache".data then
    ⟨"CIS-5.1".data, [], true, [], []⟩
  else
    ⟨"CIS-5.1".data, "Remove cache and temporary files".data, false,
      "MEDIUM".data, "No cache cleanup detected".data⟩

/-- CIS-4.6 HealthcheckRule.Check. -/
def HealthcheckCheck (df : Str) : CISResult :=
  if !goContains (goToLower df) "healthcheck".data then
    ⟨"CIS-4.6".data, "Container must define HEALTHCHECK".data, false,
      "LOW".data, "Missing HEALTHCHECK instruction".data⟩
  else ⟨"CIS-4.6".data, [], true, [], []⟩

/-- CIS-5.2 DockerIgnoreRule.Check queries the filesystem
(os.Stat ".dockerignore"); the embedding takes the outcome of that check as
a boolean input. -/
def DockerIgnoreCheck (dockerignoreExists : Bool) : CISResult :=
  if dockerignoreExists then ⟨"CIS-5.2".data, [], true, [], []⟩
  else
    ⟨"CIS-5.2".data, "Use .dockerignore".data, false, "LOW".data,
      ".dockerignore file not found".data⟩

/-- CIS-6.1 MinimalPortExposureRule.Check. -/
def MinimalPortExposureCheck (df : Str) : CISResult :=
  if 1 < List.countP exposeLinePred (goSplit df "\n".data) then
    ⟨"CIS-6.1".data, "Expose minimum ports".data, false, "LOW".data,
      "Multiple exposed ports detected".data⟩
  else ⟨"CIS-6.1".data, [], true, [], []⟩

/-- CIS-7.1 MultiStageBuildRule.Check. -/
def MultiStageBuildCheck (df : Str) : CISResult :=
  if List.countP fromLinePred (goSplit df "\n".data) ≤ 1 then
    ⟨"CIS-7.1".data, "Use multi-stage builds when appropriate".data, false,
      "MEDIUM".data, "Single stage build detected".data⟩
  else ⟨"CIS-7.1".data, [], true, [], []⟩

/-- Line test of CIS-8.1: strings.HasPrefix(strings.TrimSpace(line), "RUN"),
a case-sensitive prefix (the source applies no ToUpper here, unlike the
other keyword rules), together with !strings.Contains(line, "&&"). -/
def combinedRunViolation (line : Str) : Bool :=
  goHasPrefix (goTrimSpace line) "RUN".data && !goContains line "&&".data

/-- Loop of CombinedRunCommandRule.Check: fails on the first violating
line. -/
def combinedRunLoop : List Str → CISResult
  | [] => ⟨"CIS-8.1".data, [], true, [], []⟩
  | line :: rest =>
    if combinedRunViolation line then
      ⟨"CIS-8.1".data, "Combine RUN instructions".data, false, "LOW".data,
        "RUN instruction not combined".data⟩
    else combinedRunLoop rest

/-- CIS-8.1 CombinedRunCommandRule.Check. -/
def CombinedRunCommandCheck (df : Str) : CISResult :=
  combinedRunLoop (goSplit df "\n".data)

/-- Line test of CIS-9.1 for a dependency-install line: the source
upper-cases the line, then asks Contains(upper, "INSTALL") and
HasPrefix(TrimSpace(upper), "RUN"). -/
def installLinePred (line : Str) : Bool :=
  goContains (goToUpper line) "INSTALL".data &&
    goHasPrefix (goTrimSpace (goToUpper line)) "RUN".data

/-- Line test of CIS-9.1 for a COPY line. -/
def copyLinePred (line : Str) : Bool :=
  goHasPrefix (goTrimSpace (goToUpper line)) "COPY".data

/-- Loop of OptimizedOrderRule.Check: one pass recording the indexes of the
most recent matching lines, both starting at -1. -/
def optimizedOrderLoop : List Str → Int → Int → Int → Int × Int
  | [], _, installIndex, copyIndex => (installIndex, copyIndex)
  | line :: rest, i, installIndex, copyIndex =>
    optimizedOrderLoop rest (i + 1)
      (if installLinePred line then i else installIndex)
      (if copyLinePred line then i else copyIndex)

/-- CIS-9.1 OptimizedOrderRule.Check. -/
def OptimizedOrderCheck (df : Str) : CISResult :=
  let p := optimizedOrderLoop (goSplit df "\n".data) 0 (-1) (-1)
  if p.2 < p.1 then
    ⟨"CIS-9.1".data, "Optimize instruction order".data, false, "LOW".data,
      "COPY before dependency install".data⟩
  else ⟨"CIS-9.1".data, [], true, [], []⟩

/-- Analyze of CISAnalyzer: every registered rule runs, in registration
order (NewCISAnalyzer).  A rule whose check panics aborts the whole run:
`none`. -/
def Analyze (content : Str) (dockerignoreExists : Bool) :
    Option (List CISResult) := do
  let r1 ← OfficialBaseImageCheck content
  let r2 ← ExplicitTagCheck content
  pure [r1, r2, NoRootUserCheck content, CleanCacheCheck content,
    HealthcheckCheck content, DockerIgnoreCheck dockerignoreExists,
    MinimalPortExposureCheck content, MultiStageBuildCheck content,
    CombinedRunCommandCheck content, OptimizedOrderCheck content]

/-- Security score of PrintCISResults: (passed count * 100) / result count.
The Go / on int truncates toward zero; both operands are non-negative, so
natural-number division agrees. -/
def securityScore (results : List CISResult) : Nat :=
  (List.countP (fun r => r.Passed) results * 100) / results.length

example :
    (OptimizedOrderCheck "COPY . .\nRUN npm install".data).Passed = false := by
  decide

example : (CombinedRunCommandCheck "run echo hi".data).Passed = true := by
  decide

example : Analyze "FROM".data false = none := by decide

example :
    (Analyze "FROM node:18\nUSER x".data true).map List.length = some 10 := by
  decide

/-! Supporting lemmas. -/

/-- getMajorVersion parses exactly the first "."-separated token, with the
parse error mapped to 0. -/
theorem getMajorVersion_eq (version : Str) :
    getMajorVersion version = (goAtoi (majorTok version)).getD 0 := by
  cases h : goSplit version ".".data with
  | nil => simp [getMajorVersion, majorTok, h, goAtoi, parseDigits]
  | cons p t => simp [getMajorVersion, majorTok, h]

/-- The CIS-1.1 failure record when the Dockerfile has no FROM line. -/
def noFromFail11 : CISResult :=
  ⟨"CIS-1.1".data, "Use official base images".data, false, "HIGH".data,
    "No FROM instruction found".data⟩

/-- The CIS-1.2 failure record when the Dockerfile has no FROM line. -/
def noFromFail12 : CISResult := ⟨"CIS-1.2".data, [], false, [], []⟩

/-- The CIS-7.1 failure record for at most one FROM line. -/
def singleStageFail : CISResult :=
  ⟨"CIS-7.1".data, "Use multi-stage builds when appropriate".data, false,
    "MEDIUM".data, "Single stage build detected".data⟩

/-- With no FROM line, the CIS-1.1 loop reaches its fall-through failure. -/
theorem officialBaseImageLoop_no_from (lines : List Str)
    (h : ∀ line ∈ lines, fromLinePred line = false) :
    officialBaseImageLoop lines = some noFromFail11 := by
  induction lines with
  | nil => rfl
  | cons line rest ih =>
    have h1 : fromLinePred line = false := h line (by simp)
    simp only [officialBaseImageLoop, h1, Bool.false_eq_true, if_false]
    exact ih fun l hl => h l (List.mem_cons_of_mem _ hl)

/-- With no FROM line, the CIS-1.2 loop reaches its fall-through failure. -/
theorem explicitTagLoop_no_from (lines : List Str)
    (h : ∀ line ∈ lines, fromLinePred line = false) :
    explicitTagLoop lines = some noFromFail12 := by
  induction lines with
  | nil => rfl
  | cons line rest ih =>
    have h1 : fromLinePred line = false := h line (by simp)
    simp only [explicitTagLoop, h1, Bool.false_eq_true, if_false]
    exact ih fun l hl => h l (List.mem_cons_of_mem _ hl)

/-- When every FROM line has at least two whitespace-delimited fields, the
CIS-1.1 loop returns a result, and its rule id is CIS-1.1. -/
theorem officialBaseImageLoop_total (lines : List Str)
    (h : ∀ line ∈ lines, fromLinePred line = true → 2 ≤ (goFields line).length) :
    ∃ r, officialBaseImageLoop lines = some r ∧ r.RuleID = "CIS-1.1".data := by
  induction lines with
  | nil => exact ⟨noFromFail11, rfl, rfl⟩
  | cons line rest ih =>
    by_cases hf : fromLinePred line = true
    · have hlen : 1 < (goFields line).length := h line (by simp) hf
      have hget := List.getElem?_eq_getElem hlen
      simp only [officialBaseImageLoop, hf, if_true, hget]
      by_cases hc : (goContains (goFields line)[1] "/".data &&
          !goHasPrefix (goFields line)[1] "library/".data) = true
      · exact ⟨_, by rw [if_pos hc], rfl⟩
      · exact ⟨_, by rw [if_neg hc], rfl⟩
    · simp only [officialBaseImageLoop, hf, Bool.false_eq_true, if_false]
      exact ih fun l hl hfl => h l (List.mem_cons_of_mem _ hl) hfl

/-- When every FROM line has at least two whitespace-delimited fields, the
CIS-1.2 loop returns a result, and its rule id is CIS-1.2. -/
theorem explicitTagLoop_total (lines : List Str)
    (h : ∀ line ∈ lines, fromLinePred line = true → 2 ≤ (goFields line).length) :
    ∃ r, explicitTagLoop lines = some r ∧ r.RuleID = "CIS-1.2".data := by
  induction lines with
  | nil => exact ⟨noFromFail12, rfl, rfl⟩
  | cons line rest ih =>
    by_cases hf : fromLinePred line = true
    · have hlen : 1 < (goFields line).length := h line (by simp) hf
      have hget := List.getElem?_eq_getElem hlen
      simp only [explicitTagLoop, hf, if_true, hget]
      by_cases hc : (!goContains (goFields line)[1] ":".data ||
          goHasSuffix (goFields line)[1] ":latest".data) = true
      · exact ⟨_, by rw [if_pos hc], rfl⟩
      · exact ⟨_, by rw [if_neg hc], rfl⟩
    · simp only [explicitTagLoop, hf, Bool.false_eq_true, if_false]
      exact ih fun l hl hfl => h l (List.mem_cons_of_mem _ hl) hfl

/-- Rule id of CIS-4.1's result. -/
theorem NoRootUserCheck_ruleID (df : Str) :
    (NoRootUserCheck df).RuleID = "CIS-4.1".data := by
  unfold NoRootUserCheck
  split <;> rfl

/-- Rule id of CIS-5.1's result. -/
theorem CleanCacheCheck_ruleID (df : Str) :
    (CleanCacheCheck df).RuleID = "CIS-5.1".data := by
  unfold CleanCacheCheck
  split <;> rfl

/-- Rule id of CIS-4.6's result. -/
theorem HealthcheckCheck_ruleID (df : Str) :
    (HealthcheckCheck df).RuleID = "CIS-4.6".data := by
  unfold HealthcheckCheck
  split <;> rfl

/-- Rule id of CIS-5.2's result. -/
theorem DockerIgnoreCheck_ruleID (b : Bool) :
    (DockerIgnoreCheck b).RuleID = "CIS-5.2".data := by
  unfold DockerIgnoreCheck
  split <;> rfl

/-- Rule id of CIS-6.1's result. -/
theorem MinimalPortExposureCheck_ruleID (df : Str) :
    (MinimalPortExposureCheck df).RuleID = "CIS-6.1".data := by
  unfold MinimalPortExposureCheck
  split <;> rfl

/-- Rule id of CIS-7.1's result. -/
theorem MultiStageBuildCheck_ruleID (df : Str) :
    (MultiStageBuildCheck df).RuleID = "CIS-7.1".data := by
  unfold MultiStageBuildCheck
  split <;> rfl

/-- Rule id of CIS-8.1's result. -/
theorem combinedRunLoop_ruleID (lines : List Str) :
    (combinedRunLoop lines).RuleID = "CIS-8.1".data := by
  induction lines with
  | nil => rfl
  | cons line rest ih =>
    by_cases hv : combinedRunViolation line = true
    · simp [combinedRunLoop, hv]
    · simp [combinedRunLoop, hv, ih]

/-- Rule id of CIS-9.1's result. -/
theorem OptimizedOrderCheck_ruleID (df : Str) :
    (OptimizedOrderCheck df).RuleID = "CIS-9.1".data := by
  simp only [OptimizedOrderCheck]
  split <;> rfl

/-- C1: For every Dockerfile text, analyze returns exactly 10 CISResult
values, one per registered rule in fixed registration order (CIS-1.1,
CIS-1.2, CIS-4.1, CIS-5.1, CIS-4.6, CIS-5.2, CIS-6.1, CIS-7.1, CIS-8.1,
CIS-9.1), and the aggregate score equals passed_count * 100 / 10 with
integer division.  The code falls short of the universal claim: on the text
"FROM" the first rule's strings.Fields(line)[1] access panics (first
conjunct); on every text whose FROM lines carry an image token the claimed
contract holds (second conjunct). -/
theorem C1_analyze_contract :
    Analyze "FROM".data false = none ∧
    ∀ (df : Str) (dockerignoreExists : Bool),
      (∀ line ∈ goSplit df "\n".data, fromLinePred line = true →
        2 ≤ (goFields line).length) →
      ∃ rs, Analyze df dockerignoreExists = some rs ∧
        rs.length = 10 ∧
        rs.map (fun r => r.RuleID) =
          ["CIS-1.1".data, "CIS-1.2".data, "CIS-4.1".data, "CIS-5.1".data,
            "CIS-4.6".data, "CIS-5.2".data, "CIS-6.1".data, "CIS-7.1".data,
            "CIS-8.1".data, "CIS-9.1".data] ∧
        securityScore rs = List.countP (fun r => r.Passed) rs * 100 / 10 := by
  constructor
  · decide
  · intro df b h
    obtain ⟨r1, e1, id1⟩ := officialBaseImageLoop_total (goSplit df "\n".data) h
    obtain ⟨r2, e2, id2⟩ := explicitTagLoop_total (goSplit df "\n".data) h
    refine ⟨[r1, r2, NoRootUserCheck df, CleanCacheCheck df, HealthcheckCheck df,
      DockerIgnoreCheck b, MinimalPortExposureCheck df, MultiStageBuildCheck df,
      CombinedRunCommandCheck df, OptimizedOrderCheck df], ?_, rfl, ?_, rfl⟩
    · simp [Analyze, OfficialBaseImageCheck, ExplicitTagCheck, e1, e2]
    · simp [id1, id2, NoRootUserCheck_ruleID, CleanCacheCheck_ruleID,
        HealthcheckCheck_ruleID, DockerIgnoreCheck_ruleID,
        MinimalPortExposureCheck_ruleID, MultiStageBuildCheck_ruleID,
        CombinedRunCommandCheck, combinedRunLoop_ruleID,
        OptimizedOrderCheck_ruleID]

/-- C6: For every Dockerfile text with no FROM line, CIS-1.1 fails HIGH
with the missing-FROM message, CIS-1.2 fails, CIS-7.1 fails MEDIUM, no rule
is a fatal error, and all 10 rule results are produced. -/
theorem C6_missing_from_rules (df : Str) (dockerignoreExists : Bool)
    (h : ∀ line ∈ goSplit df "\n".data, fromLinePred line = false) :
    Analyze df dockerignoreExists =
      some [noFromFail11, noFromFail12, NoRootUserCheck df, CleanCacheCheck df,
        HealthcheckCheck df, DockerIgnoreCheck dockerignoreExists,
        MinimalPortExposureCheck df, singleStageFail,
        CombinedRunCommandCheck df, OptimizedOrderCheck df] := by
  have e1 := officialBaseImageLoop_no_from (goSplit df "\n".data) h
  have e2 := explicitTagLoop_no_from (goSplit df "\n".data) h
  have hcount : List.countP fromLinePred (goSplit df "\n".data) = 0 :=
    List.countP_eq_zero.mpr (by simpa using h)
  have e7 : MultiStageBuildCheck df = singleStageFail := by
    unfold MultiStageBuildCheck
    rw [if_pos (by omega)]
    rfl
  simp [Analyze, OfficialBaseImageCheck, ExplicitTagCheck, e1, e2, e7]

/-- Witness for C6 at the FROM-free Dockerfile "RUN echo hi". -/
theorem C6_missing_from_rules_witness :
    Analyze "RUN echo hi".data false =
      some [noFromFail11, noFromFail12, NoRootUserCheck "RUN echo hi".data,
        CleanCacheCheck "RUN echo hi".data, HealthcheckCheck "RUN echo hi".data,
        DockerIgnoreCheck false, MinimalPortExposureCheck "RUN echo hi".data,
        singleStageFail, CombinedRunCommandCheck "RUN echo hi".data,
        OptimizedOrderCheck "RUN echo hi".data] :=
  C6_missing_from_rules "RUN echo hi".data false (by decide)

/-- C10: The claim says Analyze is total, returning a normal CISResult from
CIS-1.1 and CIS-1.2 even when the first FROM line is the bare keyword
"FROM"; the code is not: on that line strings.Fields(line)[1] is an
out-of-bounds access (the fields list has length 1), both checks panic,
and Analyze produces no result list. -/
theorem C10_bare_from_panics :
    fromLinePred "FROM".data = true ∧
    (goFields "FROM".data).length = 1 ∧
    OfficialBaseImageCheck "FROM".data = none ∧
    ExplicitTagCheck "FROM".data = none ∧
    Analyze "FROM".data true = none := by decide

/-- Index of the last element of the list satisfying p; none when no element
does. -/
def lastIdxFrom (p : Str → Bool) : List Str → Option Nat
  | [] => none
  | line :: rest =>
    match lastIdxFrom p rest with
    | some j => some (j + 1)
    | none => if p line then some 0 else none

/-- Index of the last line satisfying p, taken as -1 when no line does: the
quantity CIS-9.1 compares. -/
def lastLineIdx (p : Str → Bool) (lines : List Str) : Int :=
  (lastIdxFrom p lines).elim (-1) (fun j => (j : Int))

/-- The single pass of OptimizedOrderRule.Check computes, in each component,
the index of the last matching line (the accumulator when there is none). -/
theorem optimizedOrderLoop_eq (lines : List Str) :
    ∀ (i installIndex copyIndex : Int),
      optimizedOrderLoop lines i installIndex copyIndex =
        ((lastIdxFrom installLinePred lines).elim installIndex
            (fun j => i + (j : Int)),
          (lastIdxFrom copyLinePred lines).elim copyIndex
            (fun j => i + (j : Int))) := by
  induction lines with
  | nil => intro i a b; rfl
  | cons line rest ih =>
    intro i a b
    simp only [optimizedOrderLoop, ih, lastIdxFrom]
    cases hI : lastIdxFrom installLinePred rest <;>
      cases hC : lastIdxFrom copyLinePred rest <;>
        simp only [hI, hC, Option.elim, Prod.mk.injEq] <;>
          refine ⟨?_, ?_⟩ <;>
            first
              | (split <;> simp)
              | (push_cast; ring)


/-- C5: For every Dockerfile text, CIS-9.1 fails with severity LOW exactly
when the index of the last line that case-insensitively starts with RUN
(after trimming) and case-insensitively contains "install" is strictly
greater than the index of the last line that case-insensitively starts with
COPY, each index taken as -1 when no such line exists; otherwise it
passes. -/
theorem C5_optimized_order_rule (df : Str) :
    ((OptimizedOrderCheck df).Passed = false ↔
      lastLineIdx installLinePred (goSplit df "\n".data) >
        lastLineIdx copyLinePred (goSplit df "\n".data)) ∧
    ((OptimizedOrderCheck df).Passed = false →
      (OptimizedOrderCheck df).Severity = "LOW".data) := by
  have h := optimizedOrderLoop_eq (goSplit df "\n".data) 0 (-1) (-1)
  have hp : OptimizedOrderCheck df =
      (if lastLineIdx copyLinePred (goSplit df "\n".data) <
          lastLineIdx installLinePred (goSplit df "\n".data) then
        ⟨"CIS-9.1".data, "Optimize instruction order".data, false, "LOW".data,
          "COPY before dependency install".data⟩
      else ⟨"CIS-9.1".data, [], true, [], []⟩) := by
    simp only [OptimizedOrderCheck, h, lastLineIdx]
    cases lastIdxFrom installLinePred (goSplit df "\n".data) <;>
      cases lastIdxFrom copyLinePred (goSplit df "\n".data) <;>
        simp [Option.elim]
  rw [hp]
  constructor
  · constructor
    · intro hfail
      by_contra hlt
      rw [if_neg (by omega)] at hfail
      exact absurd hfail (by decide)
    · intro hlt
      rw [if_pos (by omega)]
  · intro hfail
    by_cases hlt : lastLineIdx copyLinePred (goSplit df "\n".data) <
        lastLineIdx installLinePred (goSplit df "\n".data)
    · rw [if_pos hlt]
    · rw [if_neg hlt] at hfail
      exact absurd hfail (by decide)

/-- Witness for C5: on "COPY . .\nRUN npm install" the last install RUN line
comes after the last COPY line and the rule fails with severity LOW. -/
theorem C5_optimized_order_rule_witness :
    (OptimizedOrderCheck "COPY . .\nRUN npm install".data).Passed = false ∧
    (OptimizedOrderCheck "COPY . .\nRUN npm install".data).Severity =
      "LOW".data := by
  have h := C5_optimized_order_rule "COPY . .\nRUN npm install".data
  have hfail := h.1.mpr (by decide)
  exact ⟨hfail, h.2 hfail⟩

/-- The CIS-8.1 loop fails exactly when some line violates the rule, and a
failure carries severity LOW. -/
theorem combinedRunLoop_spec (lines : List Str) :
    ((combinedRunLoop lines).Passed = false ↔
      ∃ line ∈ lines, combinedRunViolation line = true) ∧
    ((combinedRunLoop lines).Passed = false →
      (combinedRunLoop lines).Severity = "LOW".data) := by
  induction lines with
  | nil =>
    exact ⟨by simp [combinedRunLoop], fun h => absurd h (by decide)⟩
  | cons line rest ih =>
    by_cases hv : combinedRunViolation line = true
    · refine ⟨?_, ?_⟩ <;> simp [combinedRunLoop, hv]
    · refine ⟨?_, ?_⟩ <;> simp only [combinedRunLoop, hv, Bool.false_eq_true,
        if_false, List.mem_cons]
      · rw [ih.1]
        constructor
        · rintro ⟨l, hl, hvl⟩
          exact ⟨l, Or.inr hl, hvl⟩
        · rintro ⟨l, hl | hl, hvl⟩
          · exact absurd hvl (by rw [hl]; exact hv)
          · exact ⟨l, hl, hvl⟩
      · exact ih.2

/-- C9 counterexample: the line "run echo hi" begins with RUN
case-insensitively after trimming and contains no "&&", so the claim says
CIS-8.1 fails on it; the code's prefix match is case-sensitive and the rule
passes. -/
theorem C9_lowercase_run_not_flagged :
    goHasPrefix (goToUpper (goTrimSpace "run echo hi".data)) "RUN".data = true ∧
    goContains "run echo hi".data "&&".data = false ∧
    (CombinedRunCommandCheck "run echo hi".data).Passed = true := by decide

/-- C9 amended: keyword matching in CIS-8.1 is case-sensitive, unlike the
other rules: the rule fails with severity LOW exactly when some line's
trimmed form begins with the exact-case prefix "RUN" and the line does not
contain "&&"; it passes when every such RUN line contains "&&". -/
theorem C9_combined_run_case_sensitive (df : Str) :
    ((CombinedRunCommandCheck df).Passed = false ↔
      ∃ line ∈ goSplit df "\n".data,
        goHasPrefix (goTrimSpace line) "RUN".data = true ∧
        goContains line "&&".data = false) ∧
    ((CombinedRunCommandCheck df).Passed = false →
      (CombinedRunCommandCheck df).Severity = "LOW".data) := by
  have h := combinedRunLoop_spec (goSplit df "\n".data)
  refine ⟨?_, h.2⟩
  rw [CombinedRunCommandCheck, h.1]
  constructor
  · rintro ⟨l, hl, hvl⟩
    rw [combinedRunViolation, Bool.and_eq_true, Bool.not_eq_true'] at hvl
    exact ⟨l, hl, hvl⟩
  · rintro ⟨l, hl, h1, h2⟩
    exact ⟨l, hl, by rw [combinedRunViolation, h1, h2]; rfl⟩

/-- Witness for C9's amended theorem: "RUN apt-get update" (exact-case RUN,
no "&&") makes CIS-8.1 fail with severity LOW. -/
theorem C9_combined_run_case_sensitive_witness :
    (CombinedRunCommandCheck "RUN apt-get update".data).Passed = false ∧
    (CombinedRunCommandCheck "RUN apt-get update".data).Severity =
      "LOW".data := by
  have h := C9_combined_run_case_sensitive "RUN apt-get update".data
  have hfail := h.1.mpr (by decide)
  exact ⟨hfail, h.2 hfail⟩

/-- Sentinel strings do not parse as a major version. -/
theorem sentinel_majorTok_none :
    goAtoi (majorTok "detected".data) = none ∧
    goAtoi (majorTok "unknown".data) = none ∧
    goAtoi (majorTok "compiled".data) = none := by decide

/-- The natural-language counterexample record for C2: its environment
holds an empty-valued NODE_VERSION entry before NODE_VERSION=18.0.0. -/
def slippedEnvImage : InspectResponse :=
  ⟨⟨["NODE_VERSION=".data, "NODE_VERSION=18.0.0".data, "GOPATH=/go".data],
    [], [], []⟩, 0⟩

/-- C2 counterexample: this metadata's environment contains both
NODE_VERSION=18.0.0 and GOPATH=/go, yet the detected language is Go, not
Node.js: detectNodeJSVersion returns the value of the first NODE_VERSION=
entry, here the empty string, so the Node.js branch is skipped and the
GOPATH branch fires. -/
theorem C2_contains_both_but_go :
    ("NODE_VERSION=18.0.0".data ∈ slippedEnvImage.Config.Env ∧
      "GOPATH=/go".data ∈ slippedEnvImage.Config.Env) ∧
    (DetectPrimaryLanguage slippedEnvImage).map (fun l => l.Name) =
      some "Go".data := by decide

/-- C2 amended: the cascade is a strict priority order; whenever the
Node.js detector matches, i.e. the first NODE_VERSION=-prefixed environment
entry has a non-empty value, the result is Node.js, masking every later
detector (in particular Go, even with GOPATH=/go present). -/
theorem C2_node_masks_later (m : InspectResponse)
    (h : detectNodeJSVersion m.Config.Env ≠ []) :
    ∃ li, DetectPrimaryLanguage m = some li ∧ li.Name = "Node.js".data := by
  refine ⟨⟨"Node.js".data, detectNodeJSVersion m.Config.Env,
    getNodeJSColor (detectNodeJSVersion m.Config.Env)⟩, ?_, rfl⟩
  simp only [DetectPrimaryLanguage]
  rw [if_pos h]

/-- Witness for C2's amended theorem: environment with NODE_VERSION=18.0.0
first and GOPATH=/go. -/
theorem C2_node_masks_later_witness :
    ∃ li, DetectPrimaryLanguage
        ⟨⟨["NODE_VERSION=18.0.0".data, "GOPATH=/go".data], [], [], []⟩, 0⟩ =
          some li ∧ li.Name = "Node.js".data :=
  C2_node_masks_later
    ⟨⟨["NODE_VERSION=18.0.0".data, "GOPATH=/go".data], [], [], []⟩, 0⟩
    (by decide)

/-- Image metadata of C3's scenario. -/
def node12Image : InspectResponse :=
  ⟨⟨["NODE_VERSION=12.0.0".data], [], [], []⟩, 0⟩

/-- C3: the Node.js classifier maps a numeric major below 14 to error, 14
through 16 to warning and 17 or above to success; the scenario
Env=["NODE_VERSION=12.0.0"] yields LanguageInfo{Node.js, "12.0.0", error}
and HasOutdatedLanguage is true. -/
theorem C3_nodejs_version_thresholds :
    (∀ (v : Str) (n : Int), goAtoi (majorTok v) = some n →
      getNodeJSColor v =
        (if n < 14 then "error".data
         else if n ≤ 16 then "warning".data
         else "success".data)) ∧
    DetectPrimaryLanguage node12Image =
      some ⟨"Node.js".data, "12.0.0".data, "error".data⟩ ∧
    HasOutdatedLanguage node12Image = true := by
  refine ⟨?_, by decide, by decide⟩
  intro v n h
  have hd : v ≠ "detected".data := by
    rintro rfl
    rw [sentinel_majorTok_none.1] at h
    exact Option.noConfusion h
  have hu : v ≠ "unknown".data := by
    rintro rfl
    rw [sentinel_majorTok_none.2.1] at h
    exact Option.noConfusion h
  have hm : getMajorVersion v = n := by
    rw [getMajorVersion_eq, h, Option.getD_some]
  rw [getNodeJSColor, if_neg (by tauto), hm]
  split_ifs <;> first | rfl | omega

/-- C4: sentinel version strings are checked before numeric parsing --- Go
maps "compiled" and "detected" to success --- and a non-sentinel version
whose first "."-separated token is not an integer parses to major 0 and
lands in the lowest bucket: error for Node.js, Python, Java, Go, PHP and
Ruby, warning for .NET. -/
theorem C4_sentinel_before_numeric :
    getGoColor "compiled".data = "success".data ∧
    getGoColor "detected".data = "success".data ∧
    ∀ v : Str, goAtoi (majorTok v) = none →
      (¬(v = "detected".data ∨ v = "unknown".data) →
        getNodeJSColor v = "error".data ∧
        getPythonColor v = "error".data ∧
        getJavaColor v = "error".data ∧
        getPHPColor v = "error".data ∧
        getRubyColor v = "error".data ∧
        getDotNetColor v = "warning".data) ∧
      (¬(v = "detected".data ∨ v = "unknown".data ∨ v = "compiled".data) →
        getGoColor v = "error".data) := by
  refine ⟨by decide, by decide, ?_⟩
  intro v h
  have hm : getMajorVersion v = 0 := by
    rw [getMajorVersion_eq, h]
    rfl
  constructor
  · intro hs
    refine ⟨?_, ?_, ?_, ?_, ?_, ?_⟩
    · rw [getNodeJSColor, if_neg hs, hm, if_pos (by norm_num)]
    · rw [getPythonColor, if_neg hs, hm, if_pos (by norm_num)]
    · rw [getJavaColor, if_neg hs, hm, if_pos (by norm_num)]
    · rw [getPHPColor, if_neg hs, hm, if_pos (by norm_num)]
    · rw [getRubyColor, if_neg hs, hm, if_pos (by norm_num)]
    · rw [getDotNetColor, if_neg hs, hm, if_pos (by norm_num)]
  · intro hs
    rw [getGoColor, if_neg hs, hm, if_pos (by norm_num)]

/-- Witness for C4 at the unparsable version string "abc". -/
theorem C4_sentinel_before_numeric_witness :
    getNodeJSColor "abc".data = "error".data ∧
    getGoColor "abc".data = "error".data ∧
    getDotNetColor "abc".data = "warning".data := by
  have h := C4_sentinel_before_numeric.2.2 "abc".data (by decide)
  exact ⟨(h.1 (by decide)).1, h.2 (by decide), (h.1 (by decide)).2.2.2.2.2⟩

/-- Image metadata of C7's precedence scenario: GOLANG_VERSION=1.21.0 with
size 15,000,000 bytes. -/
def golang121Image : InspectResponse :=
  ⟨⟨["GOLANG_VERSION=1.21.0".data], [], [], []⟩, 15000000⟩

/-- C7: the compiled-binary heuristic reports Go/"compiled"/success exactly
when entrypoint[0] passes the binary-path test and either the size is below
20MB (with the working-directory or small-size side condition) or the
working directory is a Go one and the size is strictly between 5MB and
100MB; and an explicit version environment variable takes precedence:
GOLANG_VERSION=1.21.0 at 15,000,000 bytes yields Go/"1.21.0"/success from
cascade step 4, not the heuristic. -/
theorem C7_compiled_binary_heuristic :
    (∀ (entrypoint cmd : List Str) (workingDir : Str) (imageSize : Int),
      detectCompiledBinary entrypoint cmd workingDir imageSize =
          some ⟨"Go".data, "compiled".data, "success".data⟩ ↔
        ∃ binary rest, entrypoint = binary :: rest ∧
          isLikelyGoBinary binary = true ∧
          ((imageSize < 20 * 1048576 ∧
              (hasGoWorkingDir workingDir = true ∨
                isSmallImage imageSize = true)) ∨
            (hasGoWorkingDir workingDir = true ∧
              isSmallImage imageSize = true))) ∧
    DetectPrimaryLanguage golang121Image =
      some ⟨"Go".data, "1.21.0".data, "success".data⟩ := by
  refine ⟨?_, by decide⟩
  intro entrypoint cmd workingDir imageSize
  cases entrypoint with
  | nil => simp [detectCompiledBinary]
  | cons binary rest =>
    by_cases hL : isLikelyGoBinary binary = true <;>
      by_cases hW : hasGoWorkingDir workingDir = true <;>
        by_cases hS : isSmallImage imageSize = true <;>
          by_cases hT : imageSize < 20 * 1048576 <;>
            simp [detectCompiledBinary, hL, hW, hS, hT, List.cons.injEq]

/-- C8: command/entrypoint sniffing joins entrypoint tokens followed by
command tokens; every language it reports carries version "unknown" and
color warning unconditionally, and a joined string containing "python" but
neither "node" nor "npm" yields Python/"unknown"/warning. -/
theorem C8_command_sniffing :
    (∀ (cmd entrypoint : List Str) (li : LanguageInfo),
      detectByCommand cmd entrypoint = some li →
        li.Version = "unknown".data ∧ li.Color = "warning".data) ∧
    (∀ (cmd entrypoint : List Str),
      goContains (goJoin (entrypoint ++ cmd) " ".data) "python".data = true →
      goContains (goJoin (entrypoint ++ cmd) " ".data) "node".data = false →
      goContains (goJoin (entrypoint ++ cmd) " ".data) "npm".data = false →
      detectByCommand cmd entrypoint =
        some ⟨"Python".data, "unknown".data, "warning".data⟩) := by
  constructor
  · intro cmd entrypoint li h
    simp only [detectByCommand] at h
    split_ifs at h <;> simp_all <;> exact ⟨by rw [← h], by rw [← h]⟩
  · intro cmd entrypoint h1 h2 h3
    simp [detectByCommand, h1, h2, h3]

/-- Witness for C8: entrypoint ["python", "app.py"] is sniffed as
Python/"unknown"/warning. -/
theorem C8_command_sniffing_witness :
    detectByCommand [] ["python".data, "app.py".data] =
      some ⟨"Python".data, "unknown".data, "warning".data⟩ :=
  C8_command_sniffing.2 [] ["python".data, "app.py".data]
    (by decide) (by decide) (by decide)

end Dockeryzer
